import Mathlib

/-!
Verification of the proximity scoring engine of the territorial-analysis
dashboard (`proyecto/app/calculator_backend.py`).

Shallow embedding conventions:

* Python numbers are embedded as exact rationals (`ℚ`); integer counts and
  weights as `ℕ` (all source values are nonnegative integers).
* Geometries are planar points `ℚ × ℚ`.  The source computes Euclidean
  (shapely) distances; we represent every distance by its *square* (`dist2`),
  which is order-isomorphic to the distance itself (the square root is
  strictly monotone on nonnegative reals), so radius comparisons and minima
  are preserved exactly and everything stays computable over `ℚ`.
* Coordinate reprojections (`to_crs` between EPSG:4326 and EPSG:32719) are
  opaque point transformations, passed in as function parameters `proj`
  (geographic → metric) and `invProj` (metric → geographic).
* Python dicts are association lists `List (String × _)` in insertion order;
  `dict.get`/`in` become `List.lookup`.  (`pandas.value_counts` orders its
  result by descending count; we keep first-occurrence order instead, since
  dict lookup and membership — the only operations the program performs on
  the count dict — are order-independent.)
* `shapely`'s `point.buffer(r)` is the closed disc of radius `r` for `r > 0`
  and the empty geometry for `r ≤ 0` (GEOS buffers of nonpositive distance
  around a point are empty); `intersects` on points is boundary-inclusive
  membership, i.e. `dist ≤ r`, i.e. `dist² ≤ r²`.
* `round(x, n)` is Python's round-half-to-even at `n` decimal digits,
  modelled exactly on `ℚ` by `pyRound`.
-/

namespace GeoCalc

/-- A planar point (a 2-D geometry). -/
abbrev Point : Type := ℚ × ℚ

/-- Squared Euclidean distance between two points.  Stands in for shapely's
`distance`; see the module docstring for why squares are used. -/
def dist2 (p q : Point) : ℚ := (p.1 - q.1) ^ 2 + (p.2 - q.2) ^ 2

/-- Python's `round` at integer precision: round half to even. -/
def pyRoundInt (q : ℚ) : ℤ :=
  if q - (⌊q⌋ : ℚ) < 1 / 2 then ⌊q⌋
  else if 1 / 2 < q - (⌊q⌋ : ℚ) then ⌊q⌋ + 1
  else if ⌊q⌋ % 2 = 0 then ⌊q⌋ else ⌊q⌋ + 1

/-- Python's `round(q, n)`: round half to even at `n` decimal digits. -/
def pyRound (q : ℚ) (n : ℕ) : ℚ :=
  (pyRoundInt (q * (10 : ℚ) ^ n) : ℚ) / (10 : ℚ) ^ n

/-- One row of the unified collection: a geometry plus the `tipo_servicio`
category tag. -/
structure Amenity where
  geom : Point
  cat : String
deriving DecidableEq

/-- A `GeoDataFrame` of amenities: its rows and its CRS identifier. -/
structure GeoCollection where
  rows : List Amenity
  crs : String
deriving DecidableEq

/-- `SERVICE_LAYERS`: the Category Catalog, category key → source layer. -/
def SERVICE_LAYERS : List (String × String) :=
  [("salud", "establecimientos_salud"),
   ("educacion_escolar", "establecimientos_educacion"),
   ("educacion_superior", "establecimientos_educacion_superior"),
   ("supermercados", "osm_supermercados"),
   ("almacenes_barrio", "osm_almacenes_barrio"),
   ("bancos", "osm_bancos"),
   ("ferias_libres", "ferias_libres"),
   ("areas_verdes", "areas_verdes"),
   ("cuarteles_carabineros", "cuarteles_carabineros"),
   ("companias_bomberos", "companias_bomberos"),
   ("estadios", "osm_estadios"),
   ("malls", "osm_malls"),
   ("bencineras", "osm_bencineras"),
   ("iglesias", "osm_iglesias"),
   ("museos", "osm_museos"),
   ("infraestructura_deportiva", "infraestructura_deportiva"),
   ("paradas_micro", "paradas_micro"),
   ("paradas_metro_tren", "paradas_metro_tren")]

/-- One entry of `SCORING_CONFIG`: the target count and a description. -/
structure ScoringEntry where
  meta : ℕ
  desc : String
deriving DecidableEq

/-- `SCORING_CONFIG`: the Scoring Target Table. -/
def SCORING_CONFIG : List (String × ScoringEntry) :=
  [("paradas_metro_tren", ⟨2, "Acceso a red principal"⟩),
   ("paradas_micro", ⟨5, "Opciones de recorridos"⟩),
   ("salud", ⟨2, "Consultorios/Centros Medicos"⟩),
   ("cuarteles_carabineros", ⟨1, "Seguridad cercana"⟩),
   ("companias_bomberos", ⟨1, "Respuesta emergencia"⟩),
   ("educacion_escolar", ⟨3, "Opciones colegios"⟩),
   ("educacion_superior", ⟨1, "Acceso a educacion sup."⟩),
   ("supermercados", ⟨2, "Competencia precios"⟩),
   ("almacenes_barrio", ⟨4, "Comercio local"⟩),
   ("ferias_libres", ⟨1, "Productos frescos"⟩),
   ("bencineras", ⟨2, "Abastecimiento auto"⟩),
   ("areas_verdes", ⟨4, "Pulmones verdes"⟩),
   ("infraestructura_deportiva", ⟨3, "Canchas/Gimnasios"⟩),
   ("estadios", ⟨1, "Eventos"⟩),
   ("malls", ⟨1, "Shopping/Ocio"⟩),
   ("bancos", ⟨2, "Tramites"⟩),
   ("iglesias", ⟨2, "Culto"⟩),
   ("museos", ⟨1, "Cultura"⟩)]

/-- One user profile: per-category importance weights plus a description. -/
structure Perfil where
  pesos : List (String × ℕ)
  desc : String
deriving DecidableEq

/-- `PERFILES_USUARIO`: the Profile table. -/
def PERFILES_USUARIO : List (String × Perfil) :=
  [("estudiante",
    ⟨[("educacion_superior", 5), ("paradas_metro_tren", 5), ("paradas_micro", 4),
      ("bancos", 3), ("malls", 3), ("infraestructura_deportiva", 3),
      ("areas_verdes", 2), ("bencineras", 1)],
     "Prioriza conectividad y educacion superior"⟩),
   ("adulto_mayor",
    ⟨[("salud", 5), ("farmacias", 5), ("paradas_micro", 4), ("areas_verdes", 4),
      ("cuarteles_carabineros", 3), ("bancos", 3), ("ferias_libres", 3),
      ("educacion_escolar", 1), ("educacion_superior", 1),
      ("infraestructura_deportiva", 1)],
     "Prioriza salud, tranquilidad y abasto local"⟩),
   ("familia_joven",
    ⟨[("educacion_escolar", 5), ("areas_verdes", 5), ("salud", 4),
      ("supermercados", 4), ("cuarteles_carabineros", 4), ("bencineras", 3),
      ("malls", 3), ("educacion_superior", 1)],
     "Prioriza colegios, parques y seguridad"⟩)]

/-- Whether geometry `g` intersects the circular buffer of radius `r` around
`punto` (`_gdf_servicios.intersects(circulo)` on point geometries): the
buffer is empty for `r ≤ 0`, and for `r > 0` the test is boundary-inclusive
membership in the closed disc. -/
def intersectsBuffer (punto : Point) (r : ℚ) (g : Point) : Bool :=
  decide (0 < r) && decide (dist2 g punto ≤ r ^ 2)

/-- `pandas.Series.value_counts().to_dict()` on a list of category tags:
each distinct tag mapped to its number of occurrences (see the module
docstring on entry order). -/
def value_counts (cats : List String) : List (String × ℕ) :=
  cats.dedup.map fun c => (c, cats.count c)

/-- The zero-filling loop of `obtener_servicios_en_radio`: for each catalog
category missing from the count dict, insert it with count 0. -/
def rellenar_ceros : List (String × String) → List (String × ℕ) → List (String × ℕ)
  | [], conteo => conteo
  | cl :: rest, conteo =>
      rellenar_ceros rest
        (if (conteo.lookup cl.1).isSome then conteo else conteo ++ [(cl.1, 0)])

/-- `obtener_servicios_en_radio`: count, per category, the amenities around
`(lat, lon)` within `radio_metros`.  `proj` is the EPSG:4326 → collection-CRS
reprojection of the query point. -/
def obtener_servicios_en_radio (gdf_servicios : GeoCollection) (proj : Point → Point)
    (lat lon : ℚ) (radio_metros : ℚ) : List (String × ℕ) :=
  let punto_usuario := proj (lon, lat)
  let servicios_cercanos :=
    gdf_servicios.rows.filter fun a => intersectsBuffer punto_usuario radio_metros a.geom
  let conteo := value_counts (servicios_cercanos.map fun a => a.cat)
  rellenar_ceros SERVICE_LAYERS conteo

/-- `normalizar_conteo`: normalize a raw count to a score in `[0, 1]`
against the category's target (`meta`), defaulting to 1 when the category
is absent from `SCORING_CONFIG`. -/
def normalizar_conteo (servicio_key : String) (conteo_real : ℕ) : ℚ :=
  let meta : ℕ :=
    match SCORING_CONFIG.lookup servicio_key with
    | some cfg => cfg.meta
    | none => 1
  min ((conteo_real : ℚ) / (meta : ℚ)) 1

/-- One record of the nearest-outside result dict:
`{distancia_m, geometria, servicio}` (the distance carried as its square,
see the module docstring). -/
structure ServicioCercano where
  distancia2_m : ℚ
  geometria : Point
  servicio : Amenity
deriving DecidableEq

/-- One step of the running-minimum scan over the candidate amenities:
keep the incumbent unless the next amenity is strictly closer (so the first
amenity realising the minimum wins, as `idxmin` returns the first minimal
index). -/
def paso_mas_cercano (punto : Point) (best : Amenity × ℚ) (a2 : Amenity) : Amenity × ℚ :=
  let d2 := dist2 a2.geom punto
  if d2 < best.2 then (a2, d2) else best

/-- `distancias.idxmin()` / `distancias.min()`: the first amenity of the list
realising the minimal distance to `punto`, with that distance (squared). -/
def mas_cercano (punto : Point) : List Amenity → Option (Amenity × ℚ)
  | [] => none
  | a :: resto =>
      some (resto.foldl (paso_mas_cercano punto) (a, dist2 a.geom punto))

/-- `obtener_servicios_mas_cercanos`: for each requested category, the
nearest amenity of that category strictly outside the radius buffer.
`invProj` is the collection-CRS → EPSG:4326 reprojection used for display. -/
def obtener_servicios_mas_cercanos (gdf_servicios : GeoCollection)
    (proj invProj : Point → Point) (lat lon : ℚ) (tipos_faltantes : List String)
    (radio_metros : ℚ) : List (String × ServicioCercano) :=
  let punto_usuario := proj (lon, lat)
  let servicios_fuera_radio :=
    gdf_servicios.rows.filter fun a => ! intersectsBuffer punto_usuario radio_metros a.geom
  tipos_faltantes.filterMap fun tipo =>
    let servicios_tipo := servicios_fuera_radio.filter fun a => a.cat == tipo
    match mas_cercano punto_usuario servicios_tipo with
    | none => none
    | some sd =>
        let punto_wgs84 :=
          if gdf_servicios.crs ≠ "EPSG:4326" then invProj sd.1.geom else sd.1.geom
        some (tipo, ⟨sd.2, punto_wgs84, sd.1⟩)

/-- `cargar_servicios_unificados`: load every catalog layer from the
geopackage, tag each with its category, concatenate, and force the metric
CRS EPSG:32719.  `load` returns `none` when `gpd.read_file` raises (the
layer is skipped); a loaded-but-empty layer is likewise not appended.
`srcCrs` is the CRS of the concatenated frame (`none` models a missing CRS)
and `reproj` the reprojection to EPSG:32719. -/
def cargar_servicios_unificados (load : String → Option (List Point))
    (srcCrs : Option String) (reproj : Point → Point) : GeoCollection :=
  let lista_gdfs : List (List Amenity) :=
    SERVICE_LAYERS.filterMap fun cl =>
      match load cl.2 with
      | none => none
      | some geoms =>
          if geoms.isEmpty then none
          else some (geoms.map fun g => Amenity.mk g cl.1)
  if lista_gdfs.isEmpty then
    ⟨[], "EPSG:32719"⟩
  else
    let gdf_total := lista_gdfs.flatten
    if srcCrs = some "EPSG:32719" then ⟨gdf_total, "EPSG:32719"⟩
    else ⟨gdf_total.map fun a => Amenity.mk (reproj a.geom) a.cat, "EPSG:32719"⟩

/-- One per-category detail record of the Score Result. -/
structure Detalle where
  conteo : ℕ
  score_norm : ℚ
  importancia : ℕ
  aporte_final : ℚ
deriving DecidableEq

/-- The success shape of the result dict of `calcular_indice_calidad_vida`. -/
structure IndiceResult where
  indice : ℚ
  perfil : String
  lat : ℚ
  lon : ℚ
  detalles : List (String × Detalle)
deriving DecidableEq

/-- The accumulation loop of `calcular_indice_calidad_vida`: fold the count
dict into `(puntaje_total_ponderado, suma_pesos_maximos, detalles)`. -/
def agregar_perfil (pesos_perfil : List (String × ℕ))
    (conteo_servicios : List (String × ℕ)) : ℚ × ℕ × List (String × Detalle) :=
  conteo_servicios.foldl
    (fun acc sc =>
      let puntaje_norm := normalizar_conteo sc.1 sc.2
      let peso := (pesos_perfil.lookup sc.1).getD 1
      let aporte := puntaje_norm * (peso : ℚ)
      (acc.1 + aporte, acc.2.1 + peso,
        acc.2.2 ++ [(sc.1, ⟨sc.2, pyRound puntaje_norm 2, peso, pyRound aporte 2⟩)]))
    (0, 0, [])

/-- Steps 2–3 of `calcular_indice_calidad_vida`: fold the already-fetched
count dict (`conteo_servicios` in the source) into the final rounded index
and detail map. -/
def calcular_indice_desde_conteo (pesos_perfil : List (String × ℕ))
    (conteo_servicios : List (String × ℕ)) (lat lon : ℚ) (perfil_key : String) :
    IndiceResult :=
  let acc := agregar_perfil pesos_perfil conteo_servicios
  let indice_final : ℚ := if acc.2.1 = 0 then 0 else acc.1 / (acc.2.1 : ℚ) * 100
  ⟨pyRound indice_final 1, perfil_key, lat, lon, acc.2.2⟩

/-- The body of `calcular_indice_calidad_vida` after the profile lookup
succeeded, as a function of the profile's weight dict (`pesos_perfil` in the
source): fetch the counts in a 1000 m radius, then aggregate. -/
def calcular_indice_core (pesos_perfil : List (String × ℕ)) (gdf_servicios : GeoCollection)
    (proj : Point → Point) (lat lon : ℚ) (perfil_key : String) : IndiceResult :=
  calcular_indice_desde_conteo pesos_perfil
    (obtener_servicios_en_radio gdf_servicios proj lat lon 1000) lat lon perfil_key

/-- `calcular_indice_calidad_vida`: the final index for a profile at a
location; an unknown profile key yields the structured error dict
`{"error": f"Perfil '{perfil_key}' no encontrado."}`, embedded as
`Except.error` with the same message. -/
def calcular_indice_calidad_vida (gdf_servicios : GeoCollection) (proj : Point → Point)
    (lat lon : ℚ) (perfil_key : String) : Except String IndiceResult :=
  match PERFILES_USUARIO.lookup perfil_key with
  | none => .error ("Perfil \x27" ++ perfil_key ++ "\x27 no encontrado.")
  | some perfil => .ok (calcular_indice_core perfil.pesos gdf_servicios proj lat lon perfil_key)

/-- The target (`meta`) used by `normalizar_conteo` for a category: the
Scoring Target Table entry, defaulting to 1 when absent. -/
def metaDe (servicio_key : String) : ℕ :=
  match SCORING_CONFIG.lookup servicio_key with
  | some cfg => cfg.meta
  | none => 1

/-- The detail record built by the aggregation loop for one
(category, count) pair under the weight dict `pesos`. -/
def detalleDe (pesos : List (String × ℕ)) (servicio : String) (conteo : ℕ) : Detalle :=
  ⟨conteo, pyRound (normalizar_conteo servicio conteo) 2,
   (pesos.lookup servicio).getD 1,
   pyRound (normalizar_conteo servicio conteo * (((pesos.lookup servicio).getD 1 : ℕ) : ℚ)) 2⟩

/-- The spec formula "sum over categories of normalize(category, count) *
weight", with the weight defaulting to 1 (`total_weighted`). -/
def suma_ponderada (pesos : List (String × ℕ)) (conteo : List (String × ℕ)) : ℚ :=
  (conteo.map fun sc =>
    normalizar_conteo sc.1 sc.2 * (((pesos.lookup sc.1).getD 1 : ℕ) : ℚ)).sum

/-- The spec formula "sum over categories of weight" (`total_max_weight`). -/
def suma_pesos (pesos : List (String × ℕ)) (conteo : List (String × ℕ)) : ℕ :=
  (conteo.map fun sc => (pesos.lookup sc.1).getD 1).sum

/-- Fixture: the empty unified collection in the metric CRS. -/
def gdf_vacio : GeoCollection := ⟨[], "EPSG:32719"⟩

/-- Fixture: the "estudiante" profile exactly as configured in
`PERFILES_USUARIO`. -/
def perfil_estudiante : Perfil :=
  ⟨[("educacion_superior", 5), ("paradas_metro_tren", 5), ("paradas_micro", 4),
    ("bancos", 3), ("malls", 3), ("infraestructura_deportiva", 3),
    ("areas_verdes", 2), ("bencineras", 1)],
   "Prioriza conectividad y educacion superior"⟩

/-- Fixture: a collection with one supermarket 2000 m east of the origin. -/
def gdf_lejano : GeoCollection := ⟨[⟨(2000, 0), "supermercados"⟩], "EPSG:32719"⟩

/-- Fixture: a collection with one health amenity at the origin. -/
def gdf_salud : GeoCollection := ⟨[⟨(0, 0), "salud"⟩], "EPSG:32719"⟩

/-- Fixture: the weight dict of the "adulto_mayor" profile, which contains
the non-catalog key "farmacias". -/
def pesos_adulto_mayor : List (String × ℕ) :=
  [("salud", 5), ("farmacias", 5), ("paradas_micro", 4), ("areas_verdes", 4),
   ("cuarteles_carabineros", 3), ("bancos", 3), ("ferias_libres", 3),
   ("educacion_escolar", 1), ("educacion_superior", 1),
   ("infraestructura_deportiva", 1)]

/-- Fixture: the same weight dict with the dead "farmacias" entry removed. -/
def pesos_adulto_mayor_sin_farmacias : List (String × ℕ) :=
  [("salud", 5), ("paradas_micro", 4), ("areas_verdes", 4),
   ("cuarteles_carabineros", 3), ("bancos", 3), ("ferias_libres", 3),
   ("educacion_escolar", 1), ("educacion_superior", 1),
   ("infraestructura_deportiva", 1)]

/-! ### Association-list (Python dict) lemmas -/

theorem lookup_cons {α : Type} (k : String) (p : String × α) (l : List (String × α)) :
    List.lookup k (p :: l) = if k == p.1 then some p.2 else List.lookup k l := by
  obtain ⟨k1, v1⟩ := p
  cases h : (k == k1) <;> simp [List.lookup, h]

theorem lookup_append_some {α : Type} {k : String} {v : α} {l1 l2 : List (String × α)}
    (h : List.lookup k l1 = some v) : List.lookup k (l1 ++ l2) = some v := by
  induction l1 with
  | nil => simp [List.lookup] at h
  | cons p tl ih =>
    rw [List.cons_append, lookup_cons]
    rw [lookup_cons] at h
    cases hk : (k == p.1) with
    | true => simpa [hk] using h
    | false =>
      rw [if_neg (by simp [hk])] at h
      rw [if_neg (by simp [hk])]
      exact ih h

theorem lookup_append_none {α : Type} {k : String} {l1 l2 : List (String × α)}
    (h : List.lookup k l1 = none) : List.lookup k (l1 ++ l2) = List.lookup k l2 := by
  induction l1 with
  | nil => simp
  | cons p tl ih =>
    rw [List.cons_append, lookup_cons]
    rw [lookup_cons] at h
    cases hk : (k == p.1) with
    | true => rw [if_pos (by simp [hk])] at h; exact absurd h (by simp)
    | false =>
      rw [if_neg (by simp [hk])] at h
      rw [if_neg (by simp [hk])]
      exact ih h

theorem lookup_mem {α : Type} {k : String} {v : α} {l : List (String × α)}
    (h : List.lookup k l = some v) : (k, v) ∈ l := by
  induction l with
  | nil => simp [List.lookup] at h
  | cons p tl ih =>
    rw [lookup_cons] at h
    cases hk : (k == p.1) with
    | true =>
      rw [if_pos (by simp [hk])] at h
      have hk' : k = p.1 := eq_of_beq hk
      have hv : p.2 = v := by simpa using h
      exact List.mem_cons.2 (Or.inl (by rw [hk', ← hv]))
    | false =>
      rw [if_neg (by simp [hk])] at h
      exact List.mem_cons.2 (Or.inr (ih h))

theorem lookup_eq_none_of_forall {α : Type} {k : String} {l : List (String × α)}
    (h : ∀ p ∈ l, p.1 ≠ k) : List.lookup k l = none := by
  induction l with
  | nil => simp
  | cons p tl ih =>
    rw [lookup_cons]
    have hk : (k == p.1) = false := by
      simp only [beq_eq_false_iff_ne, ne_eq]
      exact fun he => h p (List.mem_cons_self p tl) he.symm
    rw [if_neg (by simp [hk])]
    exact ih fun q hq => h q (List.mem_cons.2 (Or.inr hq))

theorem lookup_map_entry {α β : Type} (k : String) (l : List (String × β))
    (f : String → β → α) :
    List.lookup k (l.map fun p => (p.1, f p.1 p.2)) = (List.lookup k l).map (f k) := by
  induction l with
  | nil => simp [List.lookup]
  | cons p tl ih =>
    rw [List.map_cons, lookup_cons, lookup_cons]
    cases hk : (k == p.1) with
    | true =>
      have hk' : k = p.1 := eq_of_beq hk
      rw [if_pos (by simp [hk]), if_pos (by simp [hk])]
      simp [hk']
    | false =>
      rw [if_neg (by simp [hk]), if_neg (by simp [hk])]
      exact ih

theorem lookup_map_self {α : Type} (k : String) (l : List String) (f : String → α) :
    List.lookup k (l.map fun c => (c, f c)) = if k ∈ l then some (f k) else none := by
  induction l with
  | nil => simp [List.lookup]
  | cons c tl ih =>
    rw [List.map_cons, lookup_cons]
    by_cases hk : k = c
    · subst hk; simp
    · have hb : (k == c) = false := by simp [hk]
      rw [if_neg (by simp [hb])]
      simp only [List.mem_cons, hk, false_or]
      exact ih

theorem lookup_value_counts (k : String) (cats : List String) :
    List.lookup k (value_counts cats) =
      if k ∈ cats then some (cats.count k) else none := by
  unfold value_counts
  rw [lookup_map_self]
  simp [List.mem_dedup]

theorem lookup_rellenar_some {k : String} {v : ℕ} (layers : List (String × String))
    {conteo : List (String × ℕ)} (h : List.lookup k conteo = some v) :
    List.lookup k (rellenar_ceros layers conteo) = some v := by
  induction layers generalizing conteo with
  | nil => simpa [rellenar_ceros] using h
  | cons cl rest ih =>
    simp only [rellenar_ceros]
    split
    · exact ih h
    · exact ih (lookup_append_some h)

theorem lookup_rellenar_none {k : String} (layers : List (String × String))
    {conteo : List (String × ℕ)} (h : List.lookup k conteo = none)
    (hk : k ∈ layers.map Prod.fst) :
    List.lookup k (rellenar_ceros layers conteo) = some 0 := by
  induction layers generalizing conteo with
  | nil => simp at hk
  | cons cl rest ih =>
    simp only [rellenar_ceros]
    by_cases hkc : k = cl.1
    · subst hkc
      have hcond : ¬ ((List.lookup cl.1 conteo).isSome = true) := by simp [h]
      rw [if_neg hcond]
      refine lookup_rellenar_some rest ?_
      rw [lookup_append_none h, lookup_cons]
      simp
    · have hrest : k ∈ rest.map Prod.fst := by
        rcases List.mem_map.1 hk with ⟨q, hq, hqk⟩
        rcases List.mem_cons.1 hq with hq1 | hq1
        · exact absurd (hqk.symm.trans (congrArg Prod.fst hq1)) hkc
        · exact List.mem_map.2 ⟨q, hq1, hqk⟩
      split
      · exact ih h hrest
      · refine ih ?_ hrest
        rw [lookup_append_none h, lookup_cons]
        have hb : (k == cl.1) = false := by simp [hkc]
        simp [hb]

theorem mem_rellenar {p : String × ℕ} (layers : List (String × String))
    (conteo : List (String × ℕ)) (hp : p ∈ rellenar_ceros layers conteo) :
    p ∈ conteo ∨ p.1 ∈ layers.map Prod.fst := by
  induction layers generalizing conteo with
  | nil => exact Or.inl (by simpa [rellenar_ceros] using hp)
  | cons cl rest ih =>
    simp only [rellenar_ceros] at hp
    by_cases hcond : (List.lookup cl.1 conteo).isSome = true
    · rw [if_pos hcond] at hp
      rcases ih _ hp with h | h
      · exact Or.inl h
      · exact Or.inr (by simp only [List.map_cons, List.mem_cons]; exact Or.inr h)
    · rw [if_neg hcond] at hp
      rcases ih _ hp with h | h
      · rcases List.mem_append.1 h with h1 | h1
        · exact Or.inl h1
        · have : p = (cl.1, 0) := by simpa using h1
          exact Or.inr (by
            simp only [List.map_cons, List.mem_cons]
            exact Or.inl (congrArg Prod.fst this))
      · exact Or.inr (by simp only [List.map_cons, List.mem_cons]; exact Or.inr h)

/-- The central characterization of the radius query: for every catalog
category, the returned dict maps it to the number of collection rows of that
category intersecting the buffer. -/
theorem lookup_obtener (gdf : GeoCollection) (proj : Point → Point) (lat lon r : ℚ)
    (k : String) (hk : k ∈ SERVICE_LAYERS.map Prod.fst) :
    List.lookup k (obtener_servicios_en_radio gdf proj lat lon r) =
      some ((gdf.rows.filter fun a =>
        intersectsBuffer (proj (lon, lat)) r a.geom && a.cat == k).length) := by
  unfold obtener_servicios_en_radio
  have hsplit : (gdf.rows.filter fun a =>
        intersectsBuffer (proj (lon, lat)) r a.geom && a.cat == k)
      = ((gdf.rows.filter fun a =>
          intersectsBuffer (proj (lon, lat)) r a.geom).filter fun a => a.cat == k) := by
    rw [List.filter_filter]
    apply List.filter_congr
    intro a _
    exact Bool.and_comm _ _
  rw [hsplit]
  set cercanos := gdf.rows.filter fun a =>
    intersectsBuffer (proj (lon, lat)) r a.geom with hcerc
  have hcount : (cercanos.map fun a => a.cat).count k
      = (cercanos.filter fun a => a.cat == k).length := by
    rw [List.count_eq_countP, List.countP_map, ← List.countP_eq_length_filter]
    rfl
  by_cases hmem : k ∈ cercanos.map fun a => a.cat
  · rw [lookup_rellenar_some SERVICE_LAYERS
      (by rw [lookup_value_counts, if_pos hmem])]
    rw [hcount]
  · rw [lookup_rellenar_none SERVICE_LAYERS
      (by rw [lookup_value_counts, if_neg hmem]) hk]
    have : (cercanos.filter fun a => a.cat == k) = [] := by
      rw [List.filter_eq_nil_iff]
      intro a ha hcat
      exact hmem (List.mem_map.2 ⟨a, ha, eq_of_beq hcat⟩)
    rw [this]
    rfl

/-- Every key of the radius-query dict is a catalog category, provided every
row of the collection carries a catalog category. -/
theorem mem_obtener_keys {gdf : GeoCollection} {proj : Point → Point} {lat lon r : ℚ}
    {p : String × ℕ}
    (hcats : ∀ a ∈ gdf.rows, a.cat ∈ SERVICE_LAYERS.map Prod.fst)
    (hp : p ∈ obtener_servicios_en_radio gdf proj lat lon r) :
    p.1 ∈ SERVICE_LAYERS.map Prod.fst := by
  unfold obtener_servicios_en_radio at hp
  rcases mem_rellenar _ _ hp with h | h
  · unfold value_counts at h
    rcases List.mem_map.1 h with ⟨c, hc, hck⟩
    rcases List.mem_map.1 (List.mem_dedup.1 hc) with ⟨a, ha, hac⟩
    have hrow : a ∈ gdf.rows := (List.mem_filter.1 ha).1
    rw [← hck]
    simp only
    rw [← hac]
    exact hcats a hrow
  · exact h

/-! ### Rounding lemmas -/

theorem pyRoundInt_nonneg {q : ℚ} (h : 0 ≤ q) : 0 ≤ pyRoundInt q := by
  unfold pyRoundInt
  have hf : (0 : ℤ) ≤ ⌊q⌋ := Int.floor_nonneg.2 h
  split_ifs <;> omega

theorem pyRoundInt_le {q : ℚ} {M : ℤ} (h : q ≤ (M : ℚ)) : pyRoundInt q ≤ M := by
  unfold pyRoundInt
  have hf : ⌊q⌋ ≤ M := by simpa [Int.floor_intCast] using Int.floor_le_floor h
  have hq : (⌊q⌋ : ℚ) ≤ q := Int.floor_le q
  split_ifs with h1 h2 h3
  · exact hf
  · have hlt : ⌊q⌋ < M := by
      by_contra hc
      have he : ⌊q⌋ = M := le_antisymm hf (not_lt.1 hc)
      rw [he] at h2
      linarith
    omega
  · exact hf
  · have hlt : ⌊q⌋ < M := by
      by_contra hc
      have he : ⌊q⌋ = M := le_antisymm hf (not_lt.1 hc)
      rw [he] at h1
      have : q - (M : ℚ) ≤ 0 := by linarith
      exact h1 (by linarith)
    omega

theorem pyRound_nonneg {q : ℚ} (n : ℕ) (h : 0 ≤ q) : 0 ≤ pyRound q n := by
  unfold pyRound
  apply div_nonneg _ (by positivity)
  exact_mod_cast pyRoundInt_nonneg (mul_nonneg h (by positivity))

theorem pyRound_le {q : ℚ} {M : ℤ} (n : ℕ) (h : q ≤ (M : ℚ)) : pyRound q n ≤ (M : ℚ) := by
  unfold pyRound
  rw [div_le_iff₀ (by positivity)]
  have h2 : pyRoundInt (q * (10 : ℚ) ^ n) ≤ M * 10 ^ n := by
    apply pyRoundInt_le
    push_cast
    exact mul_le_mul_of_nonneg_right h (by positivity)
  calc ((pyRoundInt (q * (10 : ℚ) ^ n) : ℚ)) ≤ ((M * 10 ^ n : ℤ) : ℚ) := by exact_mod_cast h2
    _ = (M : ℚ) * 10 ^ n := by push_cast; ring

/-! ### Normalization lemmas -/

theorem metaDe_pos (k : String) : 1 ≤ metaDe k := by
  unfold metaDe
  cases h : SCORING_CONFIG.lookup k with
  | none => exact le_refl 1
  | some cfg =>
    have hall : ∀ p ∈ SCORING_CONFIG, 1 ≤ p.2.meta := by decide
    exact hall (k, cfg) (lookup_mem h)

theorem normalizar_conteo_eq (k : String) (n : ℕ) :
    normalizar_conteo k n = min ((n : ℚ) / (metaDe k : ℚ)) 1 := rfl

theorem normalizar_nonneg (k : String) (n : ℕ) : 0 ≤ normalizar_conteo k n := by
  rw [normalizar_conteo_eq]
  exact le_min (div_nonneg (by positivity) (by positivity)) (by norm_num)

theorem normalizar_le_one (k : String) (n : ℕ) : normalizar_conteo k n ≤ 1 := by
  rw [normalizar_conteo_eq]
  exact min_le_right _ _

/-! ### Aggregation-loop lemmas -/

theorem agregar_perfil_foldl (pesos : List (String × ℕ)) (conteo : List (String × ℕ))
    (init : ℚ × ℕ × List (String × Detalle)) :
    conteo.foldl
      (fun acc sc =>
        let puntaje_norm := normalizar_conteo sc.1 sc.2
        let peso := (pesos.lookup sc.1).getD 1
        let aporte := puntaje_norm * (peso : ℚ)
        (acc.1 + aporte, acc.2.1 + peso,
          acc.2.2 ++ [(sc.1, ⟨sc.2, pyRound puntaje_norm 2, peso, pyRound aporte 2⟩)]))
      init =
      (init.1 + (conteo.map fun sc =>
          normalizar_conteo sc.1 sc.2 * (((pesos.lookup sc.1).getD 1 : ℕ) : ℚ)).sum,
       init.2.1 + (conteo.map fun sc => (pesos.lookup sc.1).getD 1).sum,
       init.2.2 ++ conteo.map fun sc => (sc.1, detalleDe pesos sc.1 sc.2)) := by
  induction conteo generalizing init with
  | nil => simp
  | cons sc tl ih =>
    rw [List.foldl_cons, ih]
    simp only [List.map_cons, List.sum_cons, detalleDe]
    refine Prod.ext ?_ (Prod.ext ?_ ?_)
    · simp only; ring
    · simp only; omega
    · simp

/-- Closed form of the aggregation loop: the weighted total, the weight sum,
and one detail entry per count-dict entry, in order. -/
theorem agregar_perfil_eq (pesos : List (String × ℕ)) (conteo : List (String × ℕ)) :
    agregar_perfil pesos conteo =
      ((conteo.map fun sc =>
          normalizar_conteo sc.1 sc.2 * (((pesos.lookup sc.1).getD 1 : ℕ) : ℚ)).sum,
       (conteo.map fun sc => (pesos.lookup sc.1).getD 1).sum,
       conteo.map fun sc => (sc.1, detalleDe pesos sc.1 sc.2)) := by
  unfold agregar_perfil
  rw [agregar_perfil_foldl]
  simp

/-! ### Nearest-amenity fold lemmas -/

theorem mas_cercano_go (punto : Point) (l : List Amenity) (best : Amenity × ℚ)
    (hb : best.2 = dist2 best.1.geom punto) :
    (l.foldl (paso_mas_cercano punto) best).2 =
        dist2 (l.foldl (paso_mas_cercano punto) best).1.geom punto ∧
      ((l.foldl (paso_mas_cercano punto) best).1 = best.1 ∨
        (l.foldl (paso_mas_cercano punto) best).1 ∈ l) ∧
      (l.foldl (paso_mas_cercano punto) best).2 ≤ best.2 ∧
      ∀ b ∈ l, (l.foldl (paso_mas_cercano punto) best).2 ≤ dist2 b.geom punto := by
  induction l generalizing best with
  | nil => exact ⟨hb, Or.inl rfl, le_refl _, by simp⟩
  | cons a2 tl ih =>
    rw [List.foldl_cons]
    by_cases hlt : dist2 a2.geom punto < best.2
    · have hstep : paso_mas_cercano punto best a2 = (a2, dist2 a2.geom punto) := by
        simp [paso_mas_cercano, hlt]
      rw [hstep]
      obtain ⟨h1, h2, h3, h4⟩ := ih (a2, dist2 a2.geom punto) rfl
      refine ⟨h1, ?_, h3.trans (le_of_lt hlt), ?_⟩
      · rcases h2 with h2 | h2
        · exact Or.inr (List.mem_cons.2 (Or.inl h2))
        · exact Or.inr (List.mem_cons.2 (Or.inr h2))
      · intro b hb2
        rcases List.mem_cons.1 hb2 with rfl | hbtl
        · exact h3
        · exact h4 b hbtl
    · have hstep : paso_mas_cercano punto best a2 = best := by
        simp [paso_mas_cercano, hlt]
      rw [hstep]
      obtain ⟨h1, h2, h3, h4⟩ := ih best hb
      refine ⟨h1, ?_, h3, ?_⟩
      · rcases h2 with h2 | h2
        · exact Or.inl h2
        · exact Or.inr (List.mem_cons.2 (Or.inr h2))
      · intro b hb2
        rcases List.mem_cons.1 hb2 with rfl | hbtl
        · exact h3.trans (not_lt.1 hlt)
        · exact h4 b hbtl

/-- The running-minimum scan returns a member of the candidate list, its
exact (squared) distance, and that distance is minimal over the list. -/
theorem mas_cercano_spec {punto : Point} {l : List Amenity} {a : Amenity} {d : ℚ}
    (h : mas_cercano punto l = some (a, d)) :
    a ∈ l ∧ d = dist2 a.geom punto ∧ ∀ b ∈ l, d ≤ dist2 b.geom punto := by
  cases l with
  | nil => simp [mas_cercano] at h
  | cons a0 resto =>
    have hfold : resto.foldl (paso_mas_cercano punto) (a0, dist2 a0.geom punto) = (a, d) := by
      simpa [mas_cercano] using h
    obtain ⟨h1, h2, h3, h4⟩ := mas_cercano_go punto resto (a0, dist2 a0.geom punto) rfl
    rw [hfold] at h1 h2 h3 h4
    refine ⟨?_, h1, ?_⟩
    · rcases h2 with h2 | h2
      · exact List.mem_cons.2 (Or.inl h2)
      · exact List.mem_cons.2 (Or.inr h2)
    · intro b hb2
      rcases List.mem_cons.1 hb2 with rfl | hbtl
      · exact h3
      · exact h4 b hbtl

theorem mas_cercano_eq_none {punto : Point} {l : List Amenity} :
    mas_cercano punto l = none ↔ l = [] := by
  cases l <;> simp [mas_cercano]

/-- Variant of `lookup_obtener` for a category witnessed by an in-radius
amenity: no catalog membership needed, since `value_counts` already lists
the category. -/
theorem lookup_obtener_of_inradius (gdf : GeoCollection) (proj : Point → Point)
    (lat lon r : ℚ) {a : Amenity} (ha : a ∈ gdf.rows)
    (hin : intersectsBuffer (proj (lon, lat)) r a.geom = true) :
    List.lookup a.cat (obtener_servicios_en_radio gdf proj lat lon r) =
      some ((gdf.rows.filter fun x =>
        intersectsBuffer (proj (lon, lat)) r x.geom && x.cat == a.cat).length) := by
  unfold obtener_servicios_en_radio
  have hsplit : (gdf.rows.filter fun x =>
        intersectsBuffer (proj (lon, lat)) r x.geom && x.cat == a.cat)
      = ((gdf.rows.filter fun x =>
          intersectsBuffer (proj (lon, lat)) r x.geom).filter fun x => x.cat == a.cat) := by
    rw [List.filter_filter]
    exact List.filter_congr fun x _ => Bool.and_comm _ _
  rw [hsplit]
  set cercanos := gdf.rows.filter fun x =>
    intersectsBuffer (proj (lon, lat)) r x.geom with hcerc
  have hmem : a.cat ∈ cercanos.map fun x => x.cat :=
    List.mem_map.2 ⟨a, List.mem_filter.2 ⟨ha, hin⟩, rfl⟩
  have hcount : (cercanos.map fun x => x.cat).count a.cat
      = (cercanos.filter fun x => x.cat == a.cat).length := by
    rw [List.count_eq_countP, List.countP_map, ← List.countP_eq_length_filter]
    rfl
  rw [lookup_rellenar_some SERVICE_LAYERS
    (by rw [lookup_value_counts, if_pos hmem])]
  rw [hcount]

/-! ## The claims -/

/-- C3: `normalizar_conteo` returns `min(count / target, 1.0)` where the
target is the category entry of the Scoring Target Table, defaulting to 1
when absent; it is 0 at count 0, exactly 1 at any count at or above the
target, always within `[0, 1]`, and monotone non-decreasing in the count. -/
theorem C3_normalizar_clamp (key : String) (n m : ℕ) (hnm : n ≤ m) :
    normalizar_conteo key n = min ((n : ℚ) / (metaDe key : ℚ)) 1 ∧
    normalizar_conteo key 0 = 0 ∧
    (metaDe key ≤ n → normalizar_conteo key n = 1) ∧
    0 ≤ normalizar_conteo key n ∧
    normalizar_conteo key n ≤ 1 ∧
    normalizar_conteo key n ≤ normalizar_conteo key m := by
  have hmeta : (0 : ℚ) < (metaDe key : ℚ) := by
    exact_mod_cast Nat.lt_of_lt_of_le Nat.zero_lt_one (metaDe_pos key)
  refine ⟨normalizar_conteo_eq key n, ?_, ?_, normalizar_nonneg key n,
    normalizar_le_one key n, ?_⟩
  · rw [normalizar_conteo_eq]
    simp
  · intro hn
    rw [normalizar_conteo_eq]
    refine min_eq_right ((one_le_div hmeta).2 ?_)
    exact_mod_cast hn
  · rw [normalizar_conteo_eq, normalizar_conteo_eq]
    refine min_le_min ?_ le_rfl
    gcongr

/-- Witness for C3 at category "salud" (target 2) with counts 1 ≤ 3. -/
theorem C3_normalizar_clamp_witness :
    1 ≤ 3 ∧
    (normalizar_conteo "salud" 1 = min ((1 : ℚ) / (metaDe "salud" : ℚ)) 1 ∧
     normalizar_conteo "salud" 0 = 0 ∧
     (metaDe "salud" ≤ 1 → normalizar_conteo "salud" 1 = 1) ∧
     0 ≤ normalizar_conteo "salud" 1 ∧
     normalizar_conteo "salud" 1 ≤ 1 ∧
     normalizar_conteo "salud" 1 ≤ normalizar_conteo "salud" 3) :=
  ⟨by decide, C3_normalizar_clamp "salud" 1 3 (by decide)⟩

/-- C2: for every collection, query point and radius, the per-category count
dict of `obtener_servicios_en_radio` maps every Category Catalog key to the
number of amenities of that category intersecting the buffer — in
particular to 0 when none fell inside; the result is never sparse. -/
theorem C2_catalogo_total (gdf : GeoCollection) (proj : Point → Point) (lat lon r : ℚ)
    (k : String) (hk : k ∈ SERVICE_LAYERS.map Prod.fst) :
    List.lookup k (obtener_servicios_en_radio gdf proj lat lon r) =
      some ((gdf.rows.filter fun a =>
        intersectsBuffer (proj (lon, lat)) r a.geom && a.cat == k).length) :=
  lookup_obtener gdf proj lat lon r k hk

/-- Witness for C2: a collection holding one health amenity still reports
the "supermercados" key, with count 0. -/
theorem C2_catalogo_total_witness :
    "supermercados" ∈ SERVICE_LAYERS.map Prod.fst ∧
    List.lookup "supermercados"
      (obtener_servicios_en_radio ⟨[⟨(0, 0), "salud"⟩], "EPSG:32719"⟩ id 0 0 100) =
      some 0 :=
  ⟨by decide,
   (C2_catalogo_total ⟨[⟨(0, 0), "salud"⟩], "EPSG:32719"⟩ id 0 0 100 "supermercados"
      (by decide)).trans (by norm_num [intersectsBuffer, dist2, List.filter]; decide)⟩

/-- C8: a radius ≤ 0 yields the all-zero count dict over the catalog (the
degenerate buffer is empty), and an empty collection yields the same
all-zero dict for any radius; neither case is an error. -/
theorem C8_casos_borde (gdf : GeoCollection) (proj : Point → Point) (lat lon r : ℚ) :
    (r ≤ 0 → obtener_servicios_en_radio gdf proj lat lon r =
        SERVICE_LAYERS.map fun cl => (cl.1, 0)) ∧
    (gdf.rows = [] → obtener_servicios_en_radio gdf proj lat lon r =
        SERVICE_LAYERS.map fun cl => (cl.1, 0)) := by
  constructor
  · intro hr
    have hfilt : (gdf.rows.filter fun a =>
        intersectsBuffer (proj (lon, lat)) r a.geom) = [] := by
      rw [List.filter_eq_nil_iff]
      intro a _
      simp only [intersectsBuffer, Bool.and_eq_true, decide_eq_true_eq, not_and]
      intro h0
      exact absurd h0 (not_lt.2 hr)
    unfold obtener_servicios_en_radio
    simp only [hfilt, List.map_nil]
    decide
  · intro hrows
    unfold obtener_servicios_en_radio
    simp only [hrows, List.filter_nil, List.map_nil]
    decide

/-- Witness for C8: radius 0 around a collection containing an amenity at
the query point itself still counts nothing. -/
theorem C8_casos_borde_witness :
    (0 : ℚ) ≤ 0 ∧
    obtener_servicios_en_radio ⟨[⟨(0, 0), "salud"⟩], "EPSG:32719"⟩ id 0 0 0 =
      SERVICE_LAYERS.map fun cl => (cl.1, 0) :=
  ⟨by decide,
   (C8_casos_borde ⟨[⟨(0, 0), "salud"⟩], "EPSG:32719"⟩ id 0 0 0).1 (by decide)⟩

/-- C4: an unknown profile key makes `calcular_indice_calidad_vida` return
the structured error result carrying the offending key (no numeric index,
no exception), while any known profile key yields an error-free result. -/
theorem C4_perfil_desconocido (gdf : GeoCollection) (proj : Point → Point)
    (lat lon : ℚ) (perfil_key : String) :
    (List.lookup perfil_key PERFILES_USUARIO = none →
      calcular_indice_calidad_vida gdf proj lat lon perfil_key =
        Except.error ("Perfil \x27" ++ perfil_key ++ "\x27 no encontrado.")) ∧
    ((List.lookup perfil_key PERFILES_USUARIO).isSome = true →
      (calcular_indice_calidad_vida gdf proj lat lon perfil_key).isOk = true) := by
  constructor
  · intro h
    unfold calcular_indice_calidad_vida
    rw [h]
  · intro h
    rcases Option.isSome_iff_exists.1 h with ⟨perfil, hp⟩
    unfold calcular_indice_calidad_vida
    rw [hp]
    rfl

/-- Witness for C4: the profile key "no_existe" is reported back inside the
error, and the known key "estudiante" produces an ok result. -/
theorem C4_perfil_desconocido_witness :
    calcular_indice_calidad_vida ⟨[], "EPSG:32719"⟩ id 0 0 "no_existe" =
      Except.error ("Perfil \x27" ++ "no_existe" ++ "\x27 no encontrado.") ∧
    (calcular_indice_calidad_vida ⟨[], "EPSG:32719"⟩ id 0 0 "estudiante").isOk = true :=
  ⟨(C4_perfil_desconocido ⟨[], "EPSG:32719"⟩ id 0 0 "no_existe").1 (by decide),
   (C4_perfil_desconocido ⟨[], "EPSG:32719"⟩ id 0 0 "estudiante").2 (by decide)⟩

theorem pyRound_zero (n : ℕ) : pyRound 0 n = 0 := by
  unfold pyRound pyRoundInt
  norm_num

/-- The detail map of the aggregation: one entry per count-dict entry, in
order. -/
theorem calcular_indice_desde_conteo_detalles (pesos : List (String × ℕ))
    (conteo : List (String × ℕ)) (lat lon : ℚ) (perfil_key : String) :
    (calcular_indice_desde_conteo pesos conteo lat lon perfil_key).detalles =
      conteo.map fun sc => (sc.1, detalleDe pesos sc.1 sc.2) := by
  show (agregar_perfil pesos conteo).2.2 = _
  rw [agregar_perfil_eq]

/-- The index of the aggregation: the weighted total over the weight sum,
times 100, rounded to one decimal. -/
theorem calcular_indice_desde_conteo_indice (pesos : List (String × ℕ))
    (conteo : List (String × ℕ)) (lat lon : ℚ) (perfil_key : String) :
    (calcular_indice_desde_conteo pesos conteo lat lon perfil_key).indice =
      pyRound
        (if suma_pesos pesos conteo = 0 then 0
         else suma_ponderada pesos conteo / ((suma_pesos pesos conteo : ℕ) : ℚ) * 100) 1 := by
  show pyRound
      (if (agregar_perfil pesos conteo).2.1 = 0 then 0
       else (agregar_perfil pesos conteo).1 /
         (((agregar_perfil pesos conteo).2.1 : ℕ) : ℚ) * 100) 1 = _
  rw [agregar_perfil_eq]
  rfl

/-- C5: with a positive radius, an amenity at distance exactly `r` from the
reprojected query point (squared distance exactly `r²`) intersects the
buffer — the spatial predicate is boundary-inclusive intersection, not
strict containment — and the radius query counts it. -/
theorem C5_borde_inclusivo (gdf : GeoCollection) (proj : Point → Point) (lat lon r : ℚ)
    (a : Amenity) (hr : 0 < r) (ha : a ∈ gdf.rows)
    (hd : dist2 a.geom (proj (lon, lat)) = r ^ 2) :
    intersectsBuffer (proj (lon, lat)) r a.geom = true ∧
    List.lookup a.cat (obtener_servicios_en_radio gdf proj lat lon r) =
      some ((gdf.rows.filter fun x =>
        intersectsBuffer (proj (lon, lat)) r x.geom && x.cat == a.cat).length) ∧
    1 ≤ ((gdf.rows.filter fun x =>
        intersectsBuffer (proj (lon, lat)) r x.geom && x.cat == a.cat).length) := by
  have hin : intersectsBuffer (proj (lon, lat)) r a.geom = true := by
    simp only [intersectsBuffer, Bool.and_eq_true, decide_eq_true_eq]
    exact ⟨hr, le_of_eq hd⟩
  refine ⟨hin, lookup_obtener_of_inradius gdf proj lat lon r ha hin, ?_⟩
  have hmem : a ∈ gdf.rows.filter fun x =>
      intersectsBuffer (proj (lon, lat)) r x.geom && x.cat == a.cat :=
    List.mem_filter.2 ⟨ha, by rw [hin]; simp⟩
  have hpos := List.length_pos.2 (List.ne_nil_of_mem hmem)
  omega

/-- Witness for C5: an amenity at (3, 4), exactly 5 metres from the origin,
is counted by a radius-5 query. -/
theorem C5_borde_inclusivo_witness :
    intersectsBuffer (id ((0 : ℚ), (0 : ℚ))) 5 ((3 : ℚ), (4 : ℚ)) = true ∧
    List.lookup "salud"
      (obtener_servicios_en_radio ⟨[⟨(3, 4), "salud"⟩], "EPSG:32719"⟩ id 0 0 5) =
      some 1 := by
  have h := C5_borde_inclusivo ⟨[⟨(3, 4), "salud"⟩], "EPSG:32719"⟩ id 0 0 5
    ⟨(3, 4), "salud"⟩ (by norm_num) (List.mem_cons_self _ _) (by norm_num [dist2])
  refine ⟨h.1, h.2.1.trans ?_⟩
  norm_num [intersectsBuffer, dist2, List.filter]

/-- C7: for a known profile, every entry of the per-category count dict
produces a detail entry in the Score Result — even a category whose count,
score and contribution are all zero — holding the raw count, the normalized
score rounded to 2 decimals, the weight used (profile weight or default 1)
and the weighted contribution rounded to 2 decimals. -/
theorem C7_detalles_transparentes (gdf : GeoCollection) (proj : Point → Point)
    (lat lon : ℚ) (perfil_key : String) (perfil : Perfil)
    (h : PERFILES_USUARIO.lookup perfil_key = some perfil)
    (servicio : String) (conteo : ℕ)
    (hc : List.lookup servicio (obtener_servicios_en_radio gdf proj lat lon 1000) =
      some conteo) :
    calcular_indice_calidad_vida gdf proj lat lon perfil_key =
      Except.ok (calcular_indice_core perfil.pesos gdf proj lat lon perfil_key) ∧
    List.lookup servicio
        (calcular_indice_core perfil.pesos gdf proj lat lon perfil_key).detalles =
      some ⟨conteo, pyRound (normalizar_conteo servicio conteo) 2,
            (perfil.pesos.lookup servicio).getD 1,
            pyRound (normalizar_conteo servicio conteo *
              (((perfil.pesos.lookup servicio).getD 1 : ℕ) : ℚ)) 2⟩ := by
  constructor
  · unfold calcular_indice_calidad_vida
    rw [h]
  · have hdet : (calcular_indice_core perfil.pesos gdf proj lat lon perfil_key).detalles
        = (obtener_servicios_en_radio gdf proj lat lon 1000).map
            fun sc => (sc.1, detalleDe perfil.pesos sc.1 sc.2) := by
      unfold calcular_indice_core
      exact calcular_indice_desde_conteo_detalles perfil.pesos _ lat lon perfil_key
    rw [hdet, lookup_map_entry servicio (obtener_servicios_en_radio gdf proj lat lon 1000)
      (detalleDe perfil.pesos), hc]
    rfl

/-- Witness for C7: on the empty collection with the "estudiante" profile,
the zero-count "salud" category still gets its detail entry. -/
theorem C7_detalles_transparentes_witness :
    calcular_indice_calidad_vida gdf_vacio id 0 0 "estudiante" =
      Except.ok (calcular_indice_core perfil_estudiante.pesos gdf_vacio id 0 0 "estudiante") ∧
    List.lookup "salud"
        (calcular_indice_core perfil_estudiante.pesos gdf_vacio id 0 0 "estudiante").detalles =
      some ⟨0, pyRound (normalizar_conteo "salud" 0) 2,
            (perfil_estudiante.pesos.lookup "salud").getD 1,
            pyRound (normalizar_conteo "salud" 0 *
              (((perfil_estudiante.pesos.lookup "salud").getD 1 : ℕ) : ℚ)) 2⟩ :=
  C7_detalles_transparentes gdf_vacio id 0 0 "estudiante" perfil_estudiante
    (by decide) "salud" 0 (by decide)

/-- C1: for a known profile, `calcular_indice_calidad_vida` returns an ok
result whose index is `round(100 * Σ normalize·weight / Σ weight, 1)` over
the radius-query count dict, with the weight defaulting to 1 for categories
absent from the profile, the index being 0 when the weight sum is 0; the
index always lies within [0, 100]. -/
theorem C1_indice_formula (gdf : GeoCollection) (proj : Point → Point) (lat lon : ℚ)
    (perfil_key : String) (perfil : Perfil)
    (h : PERFILES_USUARIO.lookup perfil_key = some perfil) :
    calcular_indice_calidad_vida gdf proj lat lon perfil_key =
      Except.ok (calcular_indice_core perfil.pesos gdf proj lat lon perfil_key) ∧
    (calcular_indice_core perfil.pesos gdf proj lat lon perfil_key).indice =
      (if suma_pesos perfil.pesos (obtener_servicios_en_radio gdf proj lat lon 1000) = 0
       then 0
       else pyRound
         (100 * suma_ponderada perfil.pesos (obtener_servicios_en_radio gdf proj lat lon 1000) /
           ((suma_pesos perfil.pesos (obtener_servicios_en_radio gdf proj lat lon 1000) : ℕ) : ℚ))
         1) ∧
    0 ≤ (calcular_indice_core perfil.pesos gdf proj lat lon perfil_key).indice ∧
    (calcular_indice_core perfil.pesos gdf proj lat lon perfil_key).indice ≤ 100 := by
  have hok : calcular_indice_calidad_vida gdf proj lat lon perfil_key =
      Except.ok (calcular_indice_core perfil.pesos gdf proj lat lon perfil_key) := by
    unfold calcular_indice_calidad_vida
    rw [h]
  have hcore : (calcular_indice_core perfil.pesos gdf proj lat lon perfil_key).indice =
      pyRound
        (if suma_pesos perfil.pesos (obtener_servicios_en_radio gdf proj lat lon 1000) = 0
         then 0
         else suma_ponderada perfil.pesos (obtener_servicios_en_radio gdf proj lat lon 1000) /
           ((suma_pesos perfil.pesos (obtener_servicios_en_radio gdf proj lat lon 1000) : ℕ) : ℚ)
             * 100) 1 := by
    have h2 := calcular_indice_desde_conteo_indice perfil.pesos
      (obtener_servicios_en_radio gdf proj lat lon 1000) lat lon perfil_key
    unfold calcular_indice_core
    exact h2
  set conteo := obtener_servicios_en_radio gdf proj lat lon 1000 with hc
  set tw := suma_ponderada perfil.pesos conteo with htwdef
  set tmw := suma_pesos perfil.pesos conteo with htmwdef
  have htw0 : 0 ≤ tw := by
    rw [htwdef]
    unfold suma_ponderada
    apply List.sum_nonneg
    intro x hx
    rcases List.mem_map.1 hx with ⟨sc, hsc, rfl⟩
    exact mul_nonneg (normalizar_nonneg sc.1 sc.2) (Nat.cast_nonneg _)
  have htwle : tw ≤ ((tmw : ℕ) : ℚ) := by
    rw [htwdef, htmwdef]
    unfold suma_ponderada suma_pesos
    rw [Nat.cast_list_sum, List.map_map]
    apply List.sum_le_sum
    intro sc hsc
    simp only [Function.comp]
    exact mul_le_of_le_one_left (Nat.cast_nonneg _) (normalizar_le_one sc.1 sc.2)
  have hform : (calcular_indice_core perfil.pesos gdf proj lat lon perfil_key).indice =
      (if tmw = 0 then 0
       else pyRound (100 * tw / ((tmw : ℕ) : ℚ)) 1) := by
    rw [hcore]
    by_cases h0 : tmw = 0
    · rw [if_pos h0, if_pos h0]
      exact pyRound_zero 1
    · rw [if_neg h0, if_neg h0]
      rw [show tw / ((tmw : ℕ) : ℚ) * 100 = 100 * tw / ((tmw : ℕ) : ℚ) from by ring]
  have hbounds : 0 ≤ (calcular_indice_core perfil.pesos gdf proj lat lon perfil_key).indice ∧
      (calcular_indice_core perfil.pesos gdf proj lat lon perfil_key).indice ≤ 100 := by
    rw [hcore]
    by_cases h0 : tmw = 0
    · rw [if_pos h0, pyRound_zero 1]
      norm_num
    · rw [if_neg h0]
      have htmwpos : (0 : ℚ) < ((tmw : ℕ) : ℚ) := by
        exact_mod_cast Nat.pos_of_ne_zero h0
      have hx0 : 0 ≤ tw / ((tmw : ℕ) : ℚ) * 100 :=
        mul_nonneg (div_nonneg htw0 htmwpos.le) (by norm_num)
      have hdiv : tw / ((tmw : ℕ) : ℚ) ≤ 1 := (div_le_one htmwpos).2 htwle
      have hx100 : tw / ((tmw : ℕ) : ℚ) * 100 ≤ ((100 : ℤ) : ℚ) := by
        push_cast
        nlinarith
      refine ⟨pyRound_nonneg 1 hx0, ?_⟩
      have := pyRound_le 1 hx100
      exact_mod_cast this
  exact ⟨hok, hform, hbounds.1, hbounds.2⟩

/-- Witness for C1: the "estudiante" profile on the empty collection has an
ok result with index within bounds. -/
theorem C1_indice_formula_witness :
    calcular_indice_calidad_vida gdf_vacio id 0 0 "estudiante" =
      Except.ok (calcular_indice_core perfil_estudiante.pesos gdf_vacio id 0 0 "estudiante") ∧
    0 ≤ (calcular_indice_core perfil_estudiante.pesos gdf_vacio id 0 0 "estudiante").indice ∧
    (calcular_indice_core perfil_estudiante.pesos gdf_vacio id 0 0 "estudiante").indice ≤ 100 := by
  have h := C1_indice_formula gdf_vacio id 0 0 "estudiante" perfil_estudiante (by decide)
  exact ⟨h.1, h.2.2.1, h.2.2.2⟩

/-- Every entry of the nearest-outside dict comes from a requested category
whose candidate scan succeeded. -/
theorem mem_mas_cercanos {gdf : GeoCollection} {proj invProj : Point → Point}
    {lat lon r : ℚ} {tipos : List String} {tipo : String} {e : ServicioCercano}
    (h : (tipo, e) ∈ obtener_servicios_mas_cercanos gdf proj invProj lat lon tipos r) :
    tipo ∈ tipos ∧
    mas_cercano (proj (lon, lat))
      ((gdf.rows.filter fun a => ! intersectsBuffer (proj (lon, lat)) r a.geom).filter
        fun a => a.cat == tipo) = some (e.servicio, e.distancia2_m) := by
  unfold obtener_servicios_mas_cercanos at h
  rcases List.mem_filterMap.1 h with ⟨t, ht, hf⟩
  simp only [] at hf
  cases hm : mas_cercano (proj (lon, lat))
      ((gdf.rows.filter fun a => ! intersectsBuffer (proj (lon, lat)) r a.geom).filter
        fun a => a.cat == t) with
  | none =>
    rw [hm] at hf
    simp at hf
  | some sd =>
    rw [hm] at hf
    simp only [Option.some.injEq, Prod.mk.injEq] at hf
    obtain ⟨hteq, heq⟩ := hf
    subst hteq
    subst heq
    exact ⟨ht, by rw [hm]⟩

/-- C6: every nearest-outside entry refers to an amenity of the requested
category lying strictly outside the radius buffer, its recorded (squared)
distance is that amenity's distance to the reprojected query point and is
minimal among all same-category amenities outside the buffer; a requested
category with no amenity outside the buffer is simply omitted. -/
theorem C6_mas_cercanos_fuera (gdf : GeoCollection) (proj invProj : Point → Point)
    (lat lon r : ℚ) (tipos : List String) :
    (∀ tipo e,
      (tipo, e) ∈ obtener_servicios_mas_cercanos gdf proj invProj lat lon tipos r →
      e.servicio ∈ gdf.rows ∧
      e.servicio.cat = tipo ∧
      intersectsBuffer (proj (lon, lat)) r e.servicio.geom = false ∧
      e.distancia2_m = dist2 e.servicio.geom (proj (lon, lat)) ∧
      ∀ a ∈ gdf.rows, a.cat = tipo →
        intersectsBuffer (proj (lon, lat)) r a.geom = false →
        e.distancia2_m ≤ dist2 a.geom (proj (lon, lat))) ∧
    (∀ tipo, (∀ a ∈ gdf.rows, a.cat = tipo →
        intersectsBuffer (proj (lon, lat)) r a.geom = true) →
      List.lookup tipo (obtener_servicios_mas_cercanos gdf proj invProj lat lon tipos r) =
        none) := by
  constructor
  · intro tipo e hmem
    obtain ⟨htipos, hm⟩ := mem_mas_cercanos hmem
    obtain ⟨hmem2, hdist, hmin⟩ := mas_cercano_spec hm
    have h1 := List.mem_filter.1 hmem2
    have h2 := List.mem_filter.1 h1.1
    refine ⟨h2.1, eq_of_beq h1.2, (Bool.not_eq_true' _).mp h2.2, hdist, ?_⟩
    intro a ha hcat hout
    refine hmin a (List.mem_filter.2 ⟨List.mem_filter.2 ⟨ha, ?_⟩, ?_⟩)
    · rw [hout]
      rfl
    · rw [hcat]
      exact beq_self_eq_true tipo
  · intro tipo hall
    apply lookup_eq_none_of_forall
    intro p hp hpk
    obtain ⟨ht, hm⟩ := @mem_mas_cercanos gdf proj invProj lat lon r tipos p.1 p.2 hp
    obtain ⟨hmem2, hdist, hmin⟩ := mas_cercano_spec hm
    have h1 := List.mem_filter.1 hmem2
    have h2 := List.mem_filter.1 h1.1
    have hcat : p.2.servicio.cat = tipo := (eq_of_beq h1.2).trans hpk
    have hfuera : intersectsBuffer (proj (lon, lat)) r p.2.servicio.geom = false :=
      (Bool.not_eq_true' _).mp h2.2
    rw [hall p.2.servicio h2.1 hcat] at hfuera
    exact Bool.noConfusion hfuera

/-- Witness for C6: the single supermarket 2000 m away is found as nearest
outside a 1000 m radius, strictly outside the buffer, at squared distance
4,000,000 (2000 m). -/
theorem C6_mas_cercanos_fuera_witness :
    intersectsBuffer (id ((0 : ℚ), (0 : ℚ))) 1000 ((2000 : ℚ), (0 : ℚ)) = false ∧
    (4000000 : ℚ) = dist2 ((2000 : ℚ), (0 : ℚ)) (id ((0 : ℚ), (0 : ℚ))) := by
  have hres : obtener_servicios_mas_cercanos gdf_lejano id id 0 0 ["supermercados"] 1000 =
      [("supermercados", ⟨4000000, (2000, 0), ⟨(2000, 0), "supermercados"⟩⟩)] := by
    norm_num [obtener_servicios_mas_cercanos, gdf_lejano, intersectsBuffer, dist2,
      List.filter, List.filterMap, mas_cercano]
  have h := (C6_mas_cercanos_fuera gdf_lejano id id 0 0 1000 ["supermercados"]).1
    "supermercados" ⟨4000000, (2000, 0), ⟨(2000, 0), "supermercados"⟩⟩
    (by rw [hres]; exact List.mem_cons_self _ _)
  exact ⟨h.2.2.1, h.2.2.2.1⟩

/-- C9: the unifier skips layers that fail to load and returns a collection
built from the loaded ones — every geometry of a loaded layer appears,
tagged with its category and reprojected to the metric CRS when needed, and
every resulting row comes from a loaded layer; when no layer loads it
returns the empty, correctly-typed collection in EPSG:32719, and the
resulting CRS is always EPSG:32719. -/
theorem C9_carga_unificada (load : String → Option (List Point)) (srcCrs : Option String)
    (reproj : Point → Point) :
    ((∀ cl ∈ SERVICE_LAYERS, load cl.2 = none) →
      cargar_servicios_unificados load srcCrs reproj = ⟨[], "EPSG:32719"⟩) ∧
    (cargar_servicios_unificados load srcCrs reproj).crs = "EPSG:32719" ∧
    (∀ cl ∈ SERVICE_LAYERS, ∀ gs, load cl.2 = some gs → ∀ g ∈ gs,
      Amenity.mk (if srcCrs = some "EPSG:32719" then g else reproj g) cl.1 ∈
        (cargar_servicios_unificados load srcCrs reproj).rows) ∧
    (∀ a ∈ (cargar_servicios_unificados load srcCrs reproj).rows,
      ∃ cl, cl ∈ SERVICE_LAYERS ∧ (load cl.2).isSome = true ∧ a.cat = cl.1) := by
  refine ⟨?_, ?_, ?_, ?_⟩
  · intro hnone
    unfold cargar_servicios_unificados
    have hl : SERVICE_LAYERS.filterMap (fun cl =>
        match load cl.2 with
        | none => none
        | some geoms =>
            if geoms.isEmpty then none
            else some (geoms.map fun g => Amenity.mk g cl.1)) = [] := by
      rw [List.filterMap_eq_nil_iff]
      intro cl hcl
      rw [hnone cl hcl]
    simp only [hl]
    rfl
  · unfold cargar_servicios_unificados
    simp only []
    split
    · rfl
    · split <;> rfl
  · intro cl hcl gs hgs g hg
    unfold cargar_servicios_unificados
    simp only []
    have hchunk : (gs.map fun g2 => Amenity.mk g2 cl.1) ∈
        SERVICE_LAYERS.filterMap (fun cl2 =>
          match load cl2.2 with
          | none => none
          | some geoms =>
              if geoms.isEmpty then none
              else some (geoms.map fun g2 => Amenity.mk g2 cl2.1)) := by
      refine List.mem_filterMap.2 ⟨cl, hcl, ?_⟩
      rw [hgs]
      simp only []
      rw [if_neg fun hh => List.ne_nil_of_mem hg (List.isEmpty_iff.mp hh)]
    rw [if_neg fun hemp => List.ne_nil_of_mem hchunk (List.isEmpty_iff.mp hemp)]
    by_cases hcrs : srcCrs = some "EPSG:32719"
    · rw [if_pos hcrs, if_pos hcrs]
      exact List.mem_flatten.2 ⟨_, hchunk, List.mem_map.2 ⟨g, hg, rfl⟩⟩
    · rw [if_neg hcrs, if_neg hcrs]
      refine List.mem_map.2 ⟨Amenity.mk g cl.1, ?_, rfl⟩
      exact List.mem_flatten.2 ⟨_, hchunk, List.mem_map.2 ⟨g, hg, rfl⟩⟩
  · intro a ha
    unfold cargar_servicios_unificados at ha
    simp only [] at ha
    by_cases hemp : (SERVICE_LAYERS.filterMap (fun cl2 =>
        match load cl2.2 with
        | none => none
        | some geoms =>
            if geoms.isEmpty then none
            else some (geoms.map fun g2 => Amenity.mk g2 cl2.1))).isEmpty = true
    · rw [if_pos hemp] at ha
      exact absurd ha (List.not_mem_nil a)
    · rw [if_neg hemp] at ha
      have hextract : ∀ b, b ∈ (SERVICE_LAYERS.filterMap (fun cl2 =>
          match load cl2.2 with
          | none => none
          | some geoms =>
              if geoms.isEmpty then none
              else some (geoms.map fun g2 => Amenity.mk g2 cl2.1))).flatten →
          ∃ cl, cl ∈ SERVICE_LAYERS ∧ (load cl.2).isSome = true ∧ b.cat = cl.1 := by
        intro b hb
        rcases List.mem_flatten.1 hb with ⟨chunk, hchunk, hbin⟩
        rcases List.mem_filterMap.1 hchunk with ⟨cl, hcl, hfeq⟩
        cases hload : load cl.2 with
        | none =>
          rw [hload] at hfeq
          exact absurd hfeq (by simp)
        | some gs =>
          rw [hload] at hfeq
          simp only [] at hfeq
          by_cases hgs : gs.isEmpty = true
          · rw [if_pos hgs] at hfeq
            exact absurd hfeq (by simp)
          · rw [if_neg hgs] at hfeq
            have hchunkeq : chunk = gs.map fun g2 => Amenity.mk g2 cl.1 := by
              simpa using hfeq.symm
            subst hchunkeq
            rcases List.mem_map.1 hbin with ⟨g, hgmem, hbg⟩
            exact ⟨cl, hcl, by rw [hload]; rfl, by rw [← hbg]⟩
      by_cases hcrs : srcCrs = some "EPSG:32719"
      · rw [if_pos hcrs] at ha
        exact hextract a ha
      · rw [if_neg hcrs] at ha
        rcases List.mem_map.1 ha with ⟨b, hb, hba⟩
        rcases hextract b hb with ⟨cl, hcl, hsome, hcat⟩
        refine ⟨cl, hcl, hsome, ?_⟩
        rw [← hba]
        exact hcat

/-- Witness for C9: when every layer fails to load, the unifier returns the
empty collection in EPSG:32719. -/
theorem C9_carga_unificada_witness :
    cargar_servicios_unificados (fun _ => none) none id = ⟨[], "EPSG:32719"⟩ :=
  (C9_carga_unificada (fun _ => none) none id).1 (fun _ _ => rfl)

/-- Two weight dicts that agree (with default 1) on every key of the count
dict make the aggregation loop produce identical output. -/
theorem agregar_perfil_congr (pesos1 pesos2 : List (String × ℕ))
    (conteo : List (String × ℕ))
    (hkeys : ∀ sc ∈ conteo, (pesos1.lookup sc.1).getD 1 = (pesos2.lookup sc.1).getD 1) :
    agregar_perfil pesos1 conteo = agregar_perfil pesos2 conteo := by
  rw [agregar_perfil_eq, agregar_perfil_eq]
  refine Prod.ext ?_ (Prod.ext ?_ ?_)
  · exact congrArg List.sum (List.map_congr_left fun sc hsc => by rw [hkeys sc hsc])
  · exact congrArg List.sum (List.map_congr_left fun sc hsc => hkeys sc hsc)
  · refine List.map_congr_left fun sc hsc => ?_
    unfold detalleDe
    rw [hkeys sc hsc]

/-- Two weight dicts that agree (with default 1) on every key of the count
dict make the whole aggregation produce identical Score Results. -/
theorem calcular_indice_desde_conteo_congr (pesos1 pesos2 : List (String × ℕ))
    (conteo : List (String × ℕ)) (lat lon : ℚ) (perfil_key : String)
    (hkeys : ∀ sc ∈ conteo, (pesos1.lookup sc.1).getD 1 = (pesos2.lookup sc.1).getD 1) :
    calcular_indice_desde_conteo pesos1 conteo lat lon perfil_key =
      calcular_indice_desde_conteo pesos2 conteo lat lon perfil_key := by
  unfold calcular_indice_desde_conteo
  rw [agregar_perfil_congr pesos1 pesos2 conteo hkeys]

/-- C10: the Score Result depends only on the weights of catalog
categories: two weight dicts agreeing (with default 1) on every catalog key
produce identical results on any collection whose rows all carry catalog
categories, and no detail entry is ever produced for a non-catalog key. -/
theorem C10_pesos_solo_catalogo (gdf : GeoCollection) (proj : Point → Point)
    (lat lon : ℚ) (perfil_key : String) (pesos1 pesos2 : List (String × ℕ))
    (hagree : ∀ k ∈ SERVICE_LAYERS.map Prod.fst,
      (pesos1.lookup k).getD 1 = (pesos2.lookup k).getD 1)
    (hcats : ∀ a ∈ gdf.rows, a.cat ∈ SERVICE_LAYERS.map Prod.fst) :
    calcular_indice_core pesos1 gdf proj lat lon perfil_key =
      calcular_indice_core pesos2 gdf proj lat lon perfil_key ∧
    suma_pesos pesos1 (obtener_servicios_en_radio gdf proj lat lon 1000) =
      suma_pesos pesos2 (obtener_servicios_en_radio gdf proj lat lon 1000) ∧
    ∀ p ∈ (calcular_indice_core pesos1 gdf proj lat lon perfil_key).detalles,
      p.1 ∈ SERVICE_LAYERS.map Prod.fst := by
  have hkeys : ∀ sc ∈ obtener_servicios_en_radio gdf proj lat lon 1000,
      (pesos1.lookup sc.1).getD 1 = (pesos2.lookup sc.1).getD 1 := fun sc hsc =>
    hagree sc.1 (mem_obtener_keys hcats hsc)
  refine ⟨?_, ?_, ?_⟩
  · unfold calcular_indice_core
    exact calcular_indice_desde_conteo_congr pesos1 pesos2 _ lat lon perfil_key hkeys
  · unfold suma_pesos
    exact congrArg List.sum (List.map_congr_left fun sc hsc => hkeys sc hsc)
  · intro p hp
    have hdet : (calcular_indice_core pesos1 gdf proj lat lon perfil_key).detalles =
        (obtener_servicios_en_radio gdf proj lat lon 1000).map
          fun sc => (sc.1, detalleDe pesos1 sc.1 sc.2) := by
      unfold calcular_indice_core
      exact calcular_indice_desde_conteo_detalles pesos1 _ lat lon perfil_key
    rw [hdet] at hp
    rcases List.mem_map.1 hp with ⟨sc, hsc, rfl⟩
    exact mem_obtener_keys hcats hsc

/-- Witness for C10: the "adulto_mayor" weight dict and the same dict with
its dead non-catalog "farmacias" entry removed give identical results on a
collection with one health amenity. -/
theorem C10_pesos_solo_catalogo_witness :
    calcular_indice_core pesos_adulto_mayor gdf_salud id 0 0 "adulto_mayor" =
      calcular_indice_core pesos_adulto_mayor_sin_farmacias gdf_salud id 0 0 "adulto_mayor" :=
  (C10_pesos_solo_catalogo gdf_salud id 0 0 "adulto_mayor"
    pesos_adulto_mayor pesos_adulto_mayor_sin_farmacias (by decide) (by decide)).1

end GeoCalc
